import Mathlib

/-!
Shallow embedding of the scheduling application in src/app.py.

Modelling conventions:
* Each flat file (patients CSV, schedule spreadsheet, export spreadsheet,
  communications log) is one field of a record FS; a missing file is None.
* Timestamps are minutes since a fixed epoch (day 0 = 1970-01-01 in the
  proleptic Gregorian calendar); isoformat is injective on datetimes, so
  the equality test on the start column is equality of these numbers.
* Calls to dateutil parsing are passed in as functions returning Option:
  parse_date yields the parsed calendar date as a day number, parse_time the
  parsed time of day in minutes; None models a raised parse exception.
* datetime.now() is passed in as the parameter now.
-/

namespace SchedulingAgent

/-- Exception raised by date parsing (dateutil parser errors). -/
inductive ParseError where
  | parseError
deriving Repr, DecidableEq

/-- One row of the patients CSV (columns of patients.csv in app.py). -/
structure Patient where
  patient_id : String
  name : String
  dob : String
  email : String
  phone : String
  insurance_carrier : String
  insurance_member_id : String
  insurance_group : String
deriving Repr, DecidableEq, Inhabited

/-- One row of the doctor schedule spreadsheet. The field slot_end models the
column named end in app.py (end is a reserved word in Lean). -/
structure Slot where
  doctor : String
  location : String
  start : Nat
  slot_end : Nat
  booked : Bool
  patient_id : String
deriving Repr, DecidableEq, Inhabited

/-- One row of the communications log CSV. -/
structure CommRow where
  ts : Nat
  email : String
  phone : String
  subject : String
  body : String
deriving Repr, DecidableEq, Inhabited

/-- The dictionary returned by book_appointment on success. The field res_end
models the key named end. -/
structure BookingResult where
  doctor : String
  start : Nat
  res_end : Nat
  location : String
deriving Repr, DecidableEq, Inhabited

/-- The four data files of the application; None is an absent file. -/
structure FS where
  patients : Option (List Patient)
  schedule : Option (List Slot)
  appts_export : Option (List Slot)
  comm_log : Option (List CommRow)
deriving Repr, DecidableEq

/-- Zero padding of a number to a width, as in Python format specs like 03d. -/
def padNum (w : Nat) (n : Nat) : String :=
  let s := toString n
  String.mk (List.replicate (w - s.length) '0') ++ s

/-- Civil date (year, month, day) from a day number with day 0 = 1970-01-01,
proleptic Gregorian (the era-based conversion algorithm). -/
def civilFromDays (z0 : Nat) : Nat × Nat × Nat :=
  let z := z0 + 719468
  let era := z / 146097
  let doe := z % 146097
  let yoe := (doe - doe / 1460 + doe / 36524 - doe / 146096) / 365
  let y := yoe + era * 400
  let doy := doe - (365 * yoe + yoe / 4 - yoe / 100)
  let mp := (5 * doy + 2) / 153
  let d := doy - (153 * mp + 2) / 5 + 1
  let m := if mp < 10 then mp + 3 else mp - 9
  if m ≤ 2 then (y + 1, m, d) else (y, m, d)

/-- strftime with format Y-m-d applied to a day number. -/
def fmtDate (days : Nat) : String :=
  let c := civilFromDays days
  padNum 4 c.1 ++ "-" ++ padNum 2 c.2.1 ++ "-" ++ padNum 2 c.2.2

/-- strftime with format Y-m-d H:M applied to a minute timestamp. -/
def fmtDateTime (mins : Nat) : String :=
  fmtDate (mins / 1440) ++ " " ++ padNum 2 (mins % 1440 / 60) ++ ":" ++ padNum 2 (mins % 60)

/-- Day number of 1990-01-01, the base date of the seed patients. -/
def base1990 : Nat := 7305

/-- The ten synthetic patients written by ensure_seed_data on first run. -/
def seed_patients : List Patient :=
  (List.range 10).map (fun j =>
    let i := j + 1
    { patient_id := "P" ++ padNum 3 i,
      name := "Test Patient " ++ toString i,
      dob := fmtDate (base1990 + i * 200),
      email := "patient" ++ toString i ++ "@example.com",
      phone := "+91-90000000" ++ padNum 2 i,
      insurance_carrier := "Acme Health",
      insurance_member_id := "ACME-" ++ toString (10000 + i),
      insurance_group := "GRP-01" })

/-- The fixed doctor list of ensure_seed_data: (doctor, location) pairs. -/
def seed_doctors : List (String × String) :=
  [("Dr. Rao", "Main Clinic"), ("Dr. Iyer", "Downtown"), ("Dr. Mehta", "Uptown")]

/-- One doctor's rows of the seed grid: for each of the next 7 days, 16
half-hour slots starting at 09:00 (the two inner loops of ensure_seed_data). -/
def seed_block (today : Nat) (name loc : String) : List Slot :=
  (List.range 7).flatMap (fun dd =>
    (List.range 16).map (fun k =>
      let s := (today + dd) * 1440 + 9 * 60 + 30 * k
      { doctor := name, location := loc, start := s, slot_end := s + 30,
        booked := false, patient_id := "" }))

/-- The slot grid written by ensure_seed_data on first run: for each doctor,
for each of the next 7 days (today is the day number of datetime.now), 16
half-hour slots starting at 09:00. -/
def seed_slots (today : Nat) : List Slot :=
  seed_doctors.flatMap (fun d => seed_block today d.1 d.2)

/-- ensure_seed_data: create the patients file and the schedule file when each
does not exist, independently; existing files are untouched. -/
def ensure_seed_data (today : Nat) (fs : FS) : FS :=
  let fs1 :=
    match fs.patients with
    | none => { fs with patients := some seed_patients }
    | some _ => fs
  match fs1.schedule with
  | none => { fs1 with schedule := some (seed_slots today) }
  | some _ => fs1

/-- load_patients: read the patients file. -/
def load_patients (fs : FS) : List Patient :=
  fs.patients.getD []

/-- save_patients: write the patients file. -/
def save_patients (fs : FS) (df : List Patient) : FS :=
  { fs with patients := some df }

/-- load_schedule: read the schedule file. -/
def load_schedule (fs : FS) : List Slot :=
  fs.schedule.getD []

/-- save_schedule: write the schedule file. -/
def save_schedule (fs : FS) (df : List Slot) : FS :=
  { fs with schedule := some df }

/-- One worksheet cell as written by the to_excel call of save_schedule:
openpyxl stores a string, a boolean or a number, and stores the empty string
as an empty cell carrying no value. -/
inductive XlsxCell where
  | str (s : String)
  | boolCell (b : Bool)
  | num (n : Nat)
  | emptyCell
deriving Repr, DecidableEq

/-- One cell as it comes back from the read_excel call of load_schedule:
a value, or the NaN missing-value marker that pandas substitutes for an
empty cell. -/
inductive Cell where
  | str (s : String)
  | boolCell (b : Bool)
  | num (n : Nat)
  | nan
deriving Repr, DecidableEq

/-- to_excel on one string-valued column entry: the empty string becomes an
empty cell, every other string is stored as is. -/
def writeStrCell (s : String) : XlsxCell :=
  if s = "" then XlsxCell.emptyCell else XlsxCell.str s

/-- read_excel on one cell: an empty cell becomes NaN, every other cell
keeps its value. -/
def readCell : XlsxCell → Cell
  | XlsxCell.str s => Cell.str s
  | XlsxCell.boolCell b => Cell.boolCell b
  | XlsxCell.num n => Cell.num n
  | XlsxCell.emptyCell => Cell.nan

/-- to_excel on one slot row: the six columns of the schedule sheet in file
order (doctor, location, start, end, booked, patient_id). -/
def write_slot_row (s : Slot) : List XlsxCell :=
  [writeStrCell s.doctor, writeStrCell s.location, XlsxCell.num s.start,
   XlsxCell.num s.slot_end, XlsxCell.boolCell s.booked, writeStrCell s.patient_id]

/-- save_schedule followed by load_schedule at the spreadsheet level: the
ledger is written row by row with to_excel and read back cell by cell with
read_excel. -/
def schedule_excel_roundtrip (df : List Slot) : List (List Cell) :=
  (df.map write_slot_row).map (fun r => r.map readCell)

/-- export_appointments: filter the booked rows and, when that subset is not
empty, rewrite the export file with it. -/
def export_appointments (schedule_df : List Slot) (fs : FS) : FS :=
  let booked := schedule_df.filter (fun s => s.booked)
  if booked.isEmpty then fs else { fs with appts_export := some booked }

/-- simulate_email_sms: append one row to the communications log, stamped with
the current time; the body is truncated to 4000 characters. -/
def simulate_email_sms (now : Nat) (log : Option (List CommRow))
    (to_email to_phone subject body : String) : List CommRow :=
  log.getD [] ++ [{ ts := now, email := to_email, phone := to_phone,
                    subject := subject, body := body.take 4000 }]

/-- The four-entry reminder plan of schedule_reminders: subject, nominal
delivery time (minutes, as an integer since 72 hours may reach below the
epoch), and message body. -/
def reminder_plan (now : Nat) (t0 : Nat) (doctor location : String) :
    List (String × Int × String) :=
  [("Appointment Confirmation", (now : Int),
    "Your appointment with " ++ doctor ++ " at " ++ location ++
      " is confirmed for " ++ fmtDateTime t0 ++ "."),
   ("Reminder 72h", (t0 : Int) - 72 * 60,
    "Reminder: Appointment with " ++ doctor ++ " at " ++ location ++ " on " ++
      fmtDateTime t0 ++ "."),
   ("Reminder 24h", (t0 : Int) - 24 * 60,
    "Please confirm and complete forms. Appointment with " ++ doctor ++ " at " ++
      location ++ " on " ++ fmtDateTime t0 ++ "."),
   ("Reminder 2h", (t0 : Int) - 2 * 60,
    "Final reminder: Appointment with " ++ doctor ++ " at " ++ location ++
      " at " ++ fmtDateTime t0 ++ ". Reply YES to confirm.")]

/-- schedule_reminders: log the four planned messages immediately, in plan
order; the nominal delivery time of each entry is ignored by the logging
loop, every row is stamped with now. -/
def schedule_reminders (now : Nat) (patient : Patient) (t0 : Nat)
    (doctor location : String) (log : Option (List CommRow)) : List CommRow :=
  (reminder_plan now t0 doctor location).foldl
    (fun acc entry =>
      simulate_email_sms now (some acc) patient.email patient.phone
        ("[Clinic] " ++ entry.1) entry.2.2)
    (log.getD [])

/-- Charwise lowercasing, modelling the str.lower call of Python. -/
def strLower (s : String) : String :=
  String.mk (s.data.map Char.toLower)

/-- The row predicate of the patient lookup: case-insensitive name equality
and exact equality on the normalized date of birth. -/
def patientMatches (name dob_norm : String) (p : Patient) : Bool :=
  strLower p.name == strLower name && p.dob == dob_norm

/-- The fresh row appended by find_or_create_patient on a miss: its id is the
letter P followed by the zero padded current row count plus one. -/
def new_patient_row (df : List Patient)
    (name dob_norm email phone insurance_carrier insurance_member_id insurance_group : String) :
    Patient :=
  { patient_id := "P" ++ padNum 3 (df.length + 1), name := name, dob := dob_norm,
    email := email, phone := phone, insurance_carrier := insurance_carrier,
    insurance_member_id := insurance_member_id, insurance_group := insurance_group }

/-- find_or_create_patient: normalize the date of birth (raising on parse
failure), scan for a matching row, return it with is_new false on a hit; on a
miss append a fresh row with the next sequential id and persist. -/
def find_or_create_patient (parse_date : String → Option Nat) (fs : FS)
    (name dob email phone insurance_carrier insurance_member_id insurance_group : String) :
    FS × Except ParseError (Patient × Bool) :=
  let df := load_patients fs
  match parse_date dob with
  | none => (fs, Except.error ParseError.parseError)
  | some dn =>
    let dob_norm := fmtDate dn
    match df.find? (patientMatches name dob_norm) with
    | some p => (fs, Except.ok (p, false))
    | none =>
      let row := new_patient_row df name dob_norm email phone insurance_carrier
        insurance_member_id insurance_group
      (save_patients fs (df ++ [row]), Except.ok (row, true))

/-- The slot mask of book_appointment: exact doctor equality, unbooked, and
exact equality of the start timestamp. -/
def slotMask (doctor : String) (start_dt : Nat) (s : Slot) : Bool :=
  s.doctor == doctor && s.booked == false && s.start == start_dt

/-- Index of the first row satisfying a predicate, in table order (the value
of index zero of the masked frame in app.py). -/
def first_match_idx (p : Slot → Bool) : List Slot → Option Nat
  | [] => none
  | s :: rest => if p s then some 0 else (first_match_idx p rest).map (· + 1)

/-- book_appointment: parse date and time (raising on failure), combine them
into the requested start, find the first free exactly-matching row, flip it to
booked with the patient id recorded, persist the schedule and regenerate the
export; return None when no row matches. -/
def book_appointment (parse_date parse_time : String → Option Nat) (fs : FS)
    (patient : Patient) (doctor date_str time_str : String)
    (duration_minutes : Nat) : FS × Except ParseError (Option BookingResult) :=
  let schedule := load_schedule fs
  match parse_date date_str with
  | none => (fs, Except.error ParseError.parseError)
  | some d =>
    match parse_time time_str with
    | none => (fs, Except.error ParseError.parseError)
    | some t =>
      let start_dt := d * 1440 + t
      let end_dt := start_dt + duration_minutes
      match first_match_idx (slotMask doctor start_dt) schedule with
      | none => (fs, Except.ok none)
      | some idx =>
        let s := schedule.getD idx default
        let schedule2 := schedule.set idx
          { s with booked := true, patient_id := patient.patient_id }
        let fs2 := save_schedule fs schedule2
        let fs3 := export_appointments schedule2 fs2
        (fs3, Except.ok (some { doctor := doctor, start := start_dt,
                                res_end := end_dt, location := s.location }))

/-- The doctor choices offered by the intake form selectbox. -/
def doctor_options : List String :=
  ["Dr. Shyam", "Dr. John", "Dr. Mehta"]

/-- A concrete two-row ledger used to instantiate the booking theorems. -/
def bookingWitnessSlots : List Slot :=
  [{ doctor := "Dr. Rao", location := "Main Clinic", start := 100 * 1440 + 540,
     slot_end := 100 * 1440 + 570, booked := false, patient_id := "" },
   { doctor := "Dr. Rao", location := "Main Clinic", start := 100 * 1440 + 570,
     slot_end := 100 * 1440 + 600, booked := false, patient_id := "" }]

/-- A concrete file state holding the two-row ledger. -/
def bookingWitnessFS : FS :=
  { patients := some [], schedule := some bookingWitnessSlots,
    appts_export := none, comm_log := none }

/-- A concrete patient used to instantiate the booking theorems. -/
def bookingWitnessPatient : Patient :=
  { patient_id := "P001", name := "Jane Doe", dob := "1995-03-02",
    email := "j@x.com", phone := "1", insurance_carrier := "C",
    insurance_member_id := "M", insurance_group := "G" }

/-- The file state after booking Dr. Rao at minute 540 of day 100 on the
concrete two-row ledger. -/
def bookingWitnessFS2 : FS :=
  (book_appointment (fun _ => some 100) (fun _ => some 540) bookingWitnessFS
    bookingWitnessPatient "Dr. Rao" "2025-09-05" "09:00" 30).1

/-- Forget the computed end of a booking result (used to compare bookings
made with different durations). -/
def result_sans_end (r : BookingResult) : BookingResult :=
  { r with res_end := 0 }

/-- A concrete patient row used to instantiate the patient theorems. -/
def janeRow : Patient :=
  { patient_id := "P001", name := "Jane Doe", dob := fmtDate 9191,
    email := "e", phone := "p", insurance_carrier := "c",
    insurance_member_id := "m", insurance_group := "g" }

/-! Helper lemmas about the embedded operations. -/

theorem export_appointments_schedule (df : List Slot) (fs : FS) :
    (export_appointments df fs).schedule = fs.schedule := by
  by_cases h : (df.filter (fun s => s.booked)).isEmpty <;> simp [export_appointments, h]

theorem getD_set_self {l : List Slot} {i : Nat} (a : Slot) (h : i < l.length) :
    (l.set i a).getD i default = a := by
  rw [List.getD_eq_getElem?_getD, List.getElem?_set_self h]
  rfl

theorem getD_set_of_ne {l : List Slot} {i j : Nat} (a : Slot) (h : i ≠ j) :
    (l.set i a).getD j default = l.getD j default := by
  rw [List.getD_eq_getElem?_getD, List.getElem?_set_ne h, ← List.getD_eq_getElem?_getD]

theorem first_match_idx_spec {p : Slot → Bool} {l : List Slot} {i : Nat}
    (h : first_match_idx p l = some i) :
    i < l.length ∧ p (l.getD i default) = true ∧
      ∀ j, j < i → p (l.getD j default) = false := by
  induction l generalizing i with
  | nil => simp [first_match_idx] at h
  | cons s rest ih =>
    rw [first_match_idx] at h
    by_cases hp : p s
    · rw [if_pos hp] at h
      injection h with h
      subst h
      refine ⟨Nat.succ_pos _, ?_, fun j hj => absurd hj (Nat.not_lt_zero j)⟩
      rw [List.getD_cons_zero]
      exact hp
    · rw [if_neg hp] at h
      simp only [Bool.not_eq_true] at hp
      cases hrec : first_match_idx p rest with
      | none => rw [hrec] at h; simp at h
      | some i2 =>
        rw [hrec] at h
        rw [Option.map_some'] at h
        injection h with h
        subst h
        obtain ⟨h1, h2, h3⟩ := ih hrec
        refine ⟨Nat.succ_lt_succ h1, ?_, ?_⟩
        · rw [List.getD_cons_succ]
          exact h2
        intro j hj
        cases j with
        | zero =>
          rw [List.getD_cons_zero]
          exact hp
        | succ j2 =>
          rw [List.getD_cons_succ]
          exact h3 j2 (Nat.lt_of_succ_lt_succ hj)

theorem first_match_idx_none_iff {p : Slot → Bool} {l : List Slot} :
    first_match_idx p l = none ↔ ∀ j, j < l.length → p (l.getD j default) = false := by
  induction l with
  | nil => simp [first_match_idx]
  | cons s rest ih =>
    rw [first_match_idx]
    by_cases hp : p s
    · simp only [if_pos hp]
      constructor
      · intro h
        exact Option.noConfusion h
      · intro h
        have h0 := h 0 (Nat.succ_pos _)
        rw [List.getD_cons_zero, hp] at h0
        exact Bool.noConfusion h0
    · simp only [if_neg hp, Option.map_eq_none', ih]
      simp only [Bool.not_eq_true] at hp
      constructor
      · intro h j hj
        cases j with
        | zero =>
          rw [List.getD_cons_zero]
          exact hp
        | succ j2 =>
          rw [List.getD_cons_succ]
          exact h j2 (Nat.lt_of_succ_lt_succ hj)
      · intro h j hj
        have := h (j + 1) (Nat.succ_lt_succ hj)
        rwa [List.getD_cons_succ] at this

/-! Claim theorems. -/

theorem readCell_writeStrCell (s : String) :
    readCell (writeStrCell s) = if s = "" then Cell.nan else Cell.str s := by
  by_cases h : s = "" <;> simp [writeStrCell, readCell, h]

/-- Counterexample for C8 as stated: on a one-row ledger whose patient_id is
the empty string, saving with save_schedule (to_excel) and reading back with
load_schedule (read_excel) does not return the same tuple: the empty string
comes back as the NaN missing-value marker, so every unbooked row fails the
claimed round trip. -/
theorem schedule_roundtrip_loses_empty_patient_id :
    schedule_excel_roundtrip
        [{ doctor := "Dr. Rao", location := "Main Clinic", start := 540,
           slot_end := 570, booked := false, patient_id := "" }] ≠
      [[Cell.str "Dr. Rao", Cell.str "Main Clinic", Cell.num 540, Cell.num 570,
        Cell.boolCell false, Cell.str ""]] ∧
    schedule_excel_roundtrip
        [{ doctor := "Dr. Rao", location := "Main Clinic", start := 540,
           slot_end := 570, booked := false, patient_id := "" }] =
      [[Cell.str "Dr. Rao", Cell.str "Main Clinic", Cell.num 540, Cell.num 570,
        Cell.boolCell false, Cell.nan]] := by
  exact ⟨by decide, rfl⟩

/-- C8 amended: saving the slot ledger and reading it back preserves the row
count and order, the start, end and booked fields of every row, and every
non-empty string field (in particular the doctor of every row and the
patient_id of every booked row); a string field equal to the empty string,
which is exactly the patient_id of every unbooked row, is read back as the
NaN missing-value marker instead of the empty string. -/
theorem schedule_roundtrip_preserves_rows_except_empty_strings (df : List Slot) :
    schedule_excel_roundtrip df = df.map (fun s =>
      [if s.doctor = "" then Cell.nan else Cell.str s.doctor,
       if s.location = "" then Cell.nan else Cell.str s.location,
       Cell.num s.start, Cell.num s.slot_end, Cell.boolCell s.booked,
       if s.patient_id = "" then Cell.nan else Cell.str s.patient_id]) := by
  unfold schedule_excel_roundtrip
  rw [List.map_map]
  apply List.map_congr_left
  intro s _
  simp [Function.comp_def, write_slot_row, readCell_writeStrCell]
  exact ⟨rfl, rfl, rfl⟩

/-- C6: an unparseable date of birth makes find_or_create_patient raise a
parse error and write nothing to any store, and an unparseable date or time
makes book_appointment raise a parse error and write nothing to the slot
ledger or export; the whole file state is returned unchanged in every
parse-error case. -/
theorem parse_error_rejects_without_write
    (parse_date parse_time : String → Option Nat) (fs : FS) (patient : Patient)
    (name dob email phone ic imi ig doctor date_str time_str : String) (dur : Nat) :
    (parse_date dob = none →
      find_or_create_patient parse_date fs name dob email phone ic imi ig =
        (fs, Except.error ParseError.parseError)) ∧
    (parse_date date_str = none ∨ parse_time time_str = none →
      book_appointment parse_date parse_time fs patient doctor date_str time_str dur =
        (fs, Except.error ParseError.parseError)) := by
  constructor
  · intro h
    simp [find_or_create_patient, h]
  · intro h
    rcases h with h | h
    · simp [book_appointment, h]
    · cases hd : parse_date date_str <;> simp [book_appointment, hd, h]

/-- Witness for C6 at a concrete failing parse. -/
theorem parse_error_rejects_without_write_witness :
    find_or_create_patient (fun _ => none) ⟨none, none, none, none⟩
        "Jane Doe" "not a date" "j@x.com" "1" "C" "M" "G" =
      (⟨none, none, none, none⟩, Except.error ParseError.parseError) ∧
    book_appointment (fun _ => none) (fun _ => none) ⟨none, none, none, none⟩
        default "Dr. Mehta" "not a date" "not a time" 30 =
      (⟨none, none, none, none⟩, Except.error ParseError.parseError) := by
  have h := parse_error_rejects_without_write (fun _ => none) (fun _ => none)
    ⟨none, none, none, none⟩ default "Jane Doe" "not a date" "j@x.com" "1" "C" "M" "G"
    "Dr. Mehta" "not a date" "not a time" 30
  exact ⟨h.1 rfl, h.2 (Or.inl rfl)⟩

/-- C4: schedule_reminders appends exactly four rows (the confirmation, then
the 72h, 24h and 2h reminders) to the communications log, preserving every
previously logged row, and stamps every appended row with the current time,
not the intended delivery time of the message. -/
theorem reminders_append_four_rows_stamped_now
    (now : Nat) (patient : Patient) (t0 : Nat) (doctor location : String)
    (log : Option (List CommRow)) :
    ∃ r1 r2 r3 r4 : CommRow,
      schedule_reminders now patient t0 doctor location log =
        log.getD [] ++ [r1, r2, r3, r4] ∧
      r1.ts = now ∧ r2.ts = now ∧ r3.ts = now ∧ r4.ts = now ∧
      r1.subject = "[Clinic] Appointment Confirmation" ∧
      r2.subject = "[Clinic] Reminder 72h" ∧
      r3.subject = "[Clinic] Reminder 24h" ∧
      r4.subject = "[Clinic] Reminder 2h" := by
  refine ⟨{ ts := now, email := patient.email, phone := patient.phone,
            subject := "[Clinic] Appointment Confirmation",
            body := ("Your appointment with " ++ doctor ++ " at " ++ location ++
              " is confirmed for " ++ fmtDateTime t0 ++ ".").take 4000 },
          { ts := now, email := patient.email, phone := patient.phone,
            subject := "[Clinic] Reminder 72h",
            body := ("Reminder: Appointment with " ++ doctor ++ " at " ++ location ++
              " on " ++ fmtDateTime t0 ++ ".").take 4000 },
          { ts := now, email := patient.email, phone := patient.phone,
            subject := "[Clinic] Reminder 24h",
            body := ("Please confirm and complete forms. Appointment with " ++ doctor ++
              " at " ++ location ++ " on " ++ fmtDateTime t0 ++ ".").take 4000 },
          { ts := now, email := patient.email, phone := patient.phone,
            subject := "[Clinic] Reminder 2h",
            body := ("Final reminder: Appointment with " ++ doctor ++ " at " ++ location ++
              " at " ++ fmtDateTime t0 ++ ". Reply YES to confirm.").take 4000 },
          ?_, rfl, rfl, rfl, rfl, rfl, rfl, rfl, rfl⟩
  simp [schedule_reminders, reminder_plan, simulate_email_sms, List.append_assoc]

/-- C1: a successful book_appointment call selects the first row in table
order whose doctor equals the requested doctor exactly, whose booked flag is
false and whose start equals the requested start timestamp exactly, flips
exactly that one row from unbooked to booked recording the patient id, leaves
every other row unchanged, and increases the count of booked rows by one. -/
theorem booking_flips_first_matching_row
    (parse_date parse_time : String → Option Nat) (fs : FS) (patient : Patient)
    (doctor date_str time_str : String) (dur : Nat) (d t : Nat) (fs2 : FS)
    (res : BookingResult)
    (hd : parse_date date_str = some d) (ht : parse_time time_str = some t)
    (hbook : book_appointment parse_date parse_time fs patient doctor date_str time_str dur =
      (fs2, Except.ok (some res))) :
    ∃ i, i < (load_schedule fs).length ∧
      slotMask doctor (d * 1440 + t) ((load_schedule fs).getD i default) = true ∧
      (∀ j, j < i →
        slotMask doctor (d * 1440 + t) ((load_schedule fs).getD j default) = false) ∧
      (load_schedule fs2).length = (load_schedule fs).length ∧
      (load_schedule fs2).getD i default =
        { (load_schedule fs).getD i default
            with booked := true, patient_id := patient.patient_id } ∧
      (∀ j, j ≠ i → (load_schedule fs2).getD j default = (load_schedule fs).getD j default) ∧
      (load_schedule fs2).countP (fun s => s.booked) =
        (load_schedule fs).countP (fun s => s.booked) + 1 := by
  simp only [book_appointment, hd, ht] at hbook
  cases hfm : first_match_idx (slotMask doctor (d * 1440 + t)) (load_schedule fs) with
  | none =>
    rw [hfm] at hbook
    simp at hbook
  | some i =>
    rw [hfm] at hbook
    simp only [Prod.mk.injEq] at hbook
    obtain ⟨hfs2, _⟩ := hbook
    obtain ⟨hlen, hmask, hfirst⟩ := first_match_idx_spec hfm
    have hload2 : load_schedule fs2 =
        (load_schedule fs).set i
          { (load_schedule fs).getD i default
              with booked := true, patient_id := patient.patient_id } := by
      rw [← hfs2]
      show (export_appointments _ _).schedule.getD [] = _
      rw [export_appointments_schedule]
      rfl
    have hgd : (load_schedule fs).getD i default = (load_schedule fs)[i] := by
      rw [List.getD_eq_getElem?_getD, List.getElem?_eq_getElem hlen]
      rfl
    have hbk : ((load_schedule fs).getD i default).booked = false := by
      have hm := hmask
      simp only [slotMask, Bool.and_eq_true, beq_iff_eq] at hm
      exact hm.1.2
    refine ⟨i, hlen, hmask, hfirst, ?_, ?_, ?_, ?_⟩
    · rw [hload2, List.length_set]
    · rw [hload2]
      exact getD_set_self _ hlen
    · intro j hj
      rw [hload2]
      exact getD_set_of_ne _ (Ne.symm hj)
    · rw [hload2, List.countP_set _ _ _ _ hlen, ← hgd, hbk]
      simp

/-- Witness for C1: booking a concrete two-row ledger succeeds and the
conclusions hold at that input. -/
theorem booking_flips_first_matching_row_witness :
    ∃ i, i < (load_schedule bookingWitnessFS).length ∧
      slotMask "Dr. Rao" (100 * 1440 + 540)
        ((load_schedule bookingWitnessFS).getD i default) = true ∧
      (∀ j, j < i → slotMask "Dr. Rao" (100 * 1440 + 540)
        ((load_schedule bookingWitnessFS).getD j default) = false) ∧
      (load_schedule bookingWitnessFS2).length = (load_schedule bookingWitnessFS).length ∧
      (load_schedule bookingWitnessFS2).getD i default =
        { (load_schedule bookingWitnessFS).getD i default
            with booked := true, patient_id := "P001" } ∧
      (∀ j, j ≠ i → (load_schedule bookingWitnessFS2).getD j default =
        (load_schedule bookingWitnessFS).getD j default) ∧
      (load_schedule bookingWitnessFS2).countP (fun s => s.booked) =
        (load_schedule bookingWitnessFS).countP (fun s => s.booked) + 1 := by
  have h := booking_flips_first_matching_row
    (fun _ => some 100) (fun _ => some 540) bookingWitnessFS bookingWitnessPatient
    "Dr. Rao" "2025-09-05" "09:00" 30 100 540 bookingWitnessFS2
    { doctor := "Dr. Rao", start := 100 * 1440 + 540,
      res_end := 100 * 1440 + 540 + 30, location := "Main Clinic" }
    rfl rfl rfl
  exact h

/-- C5: for any two duration values book_appointment selects the same slot
row or fails in both cases, and produces the same file state; the duration
only changes the computed end of the returned BookingResult, which equals
the requested start plus the duration in minutes. -/
theorem duration_only_changes_end
    (parse_date parse_time : String → Option Nat) (fs : FS) (patient : Patient)
    (doctor date_str time_str : String) (d1 d2 : Nat) :
    (book_appointment parse_date parse_time fs patient doctor date_str time_str d1).1 =
      (book_appointment parse_date parse_time fs patient doctor date_str time_str d2).1 ∧
    Except.map (Option.map result_sans_end)
        (book_appointment parse_date parse_time fs patient doctor date_str time_str d1).2 =
      Except.map (Option.map result_sans_end)
        (book_appointment parse_date parse_time fs patient doctor date_str time_str d2).2 ∧
    (∀ res,
      (book_appointment parse_date parse_time fs patient doctor date_str time_str d1).2 =
        Except.ok (some res) → res.res_end = res.start + d1) := by
  cases hd : parse_date date_str with
  | none => simp [book_appointment, hd]
  | some d =>
    cases ht : parse_time time_str with
    | none => simp [book_appointment, hd, ht]
    | some t =>
      cases hfm : first_match_idx (slotMask doctor (d * 1440 + t)) (load_schedule fs) with
      | none => simp [book_appointment, hd, ht, hfm]
      | some i =>
        refine ⟨?_, ?_, ?_⟩
        · simp [book_appointment, hd, ht, hfm]
        · simp only [book_appointment, hd, ht, hfm]
          rfl
        · intro res hres
          simp only [book_appointment, hd, ht, hfm] at hres
          simp only [Except.ok.injEq, Option.some.injEq] at hres
          rw [← hres]

/-- Witness for C5: on the concrete two-row ledger a booking with duration 30
has end equal to start plus 30. -/
theorem duration_only_changes_end_witness :
    (book_appointment (fun _ => some 100) (fun _ => some 540) bookingWitnessFS
        bookingWitnessPatient "Dr. Rao" "2025-09-05" "09:00" 30).2 =
      Except.ok (some
        { doctor := "Dr. Rao", start := 100 * 1440 + 540,
          res_end := 100 * 1440 + 540 + 30, location := "Main Clinic" }) ∧
    ({ doctor := "Dr. Rao", start := 100 * 1440 + 540,
       res_end := 100 * 1440 + 540 + 30, location := "Main Clinic" } :
        BookingResult).res_end = 100 * 1440 + 540 + 30 := by
  have h := (duration_only_changes_end (fun _ => some 100) (fun _ => some 540)
    bookingWitnessFS bookingWitnessPatient "Dr. Rao" "2025-09-05" "09:00" 30 60).2.2
    { doctor := "Dr. Rao", start := 100 * 1440 + 540,
      res_end := 100 * 1440 + 540 + 30, location := "Main Clinic" } rfl
  exact ⟨rfl, h⟩

/-- C9: when no existing row matches, find_or_create_patient appends one row
whose id is the letter P followed by the zero padded row count plus one and
returns it with is_new true, growing the store by exactly one row; when a row
matches, the existing row is returned unchanged with is_new false. -/
theorem patient_creation_id_and_growth
    (parse_date : String → Option Nat) (fs : FS)
    (name dob email phone ic imi ig : String) (dn : Nat)
    (hp : parse_date dob = some dn) :
    ((load_patients fs).find? (patientMatches name (fmtDate dn)) = none →
      find_or_create_patient parse_date fs name dob email phone ic imi ig =
        (save_patients fs (load_patients fs ++
            [new_patient_row (load_patients fs) name (fmtDate dn) email phone ic imi ig]),
         Except.ok
           (new_patient_row (load_patients fs) name (fmtDate dn) email phone ic imi ig,
            true)) ∧
      (new_patient_row (load_patients fs) name (fmtDate dn) email phone ic imi
          ig).patient_id = "P" ++ padNum 3 ((load_patients fs).length + 1) ∧
      (load_patients fs ++
        [new_patient_row (load_patients fs) name (fmtDate dn) email phone ic imi
          ig]).length = (load_patients fs).length + 1) ∧
    (∀ p, (load_patients fs).find? (patientMatches name (fmtDate dn)) = some p →
      find_or_create_patient parse_date fs name dob email phone ic imi ig =
        (fs, Except.ok (p, false))) := by
  constructor
  · intro hmiss
    refine ⟨?_, rfl, by simp⟩
    simp [find_or_create_patient, hp, hmiss]
  · intro p hhit
    simp [find_or_create_patient, hp, hhit]

/-- Witness for C9: creating a patient in an empty store assigns id P001 and
appends the row; a lookup that hits returns the row unchanged. -/
theorem patient_creation_id_and_growth_witness :
    find_or_create_patient (fun _ => some 9191) ⟨some [], none, none, none⟩
        "Jane Doe" "1995-03-02" "e" "p" "c" "m" "g" =
      (⟨some [janeRow], none, none, none⟩, Except.ok (janeRow, true)) ∧
    find_or_create_patient (fun _ => some 9191) ⟨some [janeRow], none, none, none⟩
        "jane doe" "1995-03-02" "e2" "p2" "c2" "m2" "g2" =
      (⟨some [janeRow], none, none, none⟩, Except.ok (janeRow, false)) := by
  have h1 := (patient_creation_id_and_growth (fun _ => some 9191)
    ⟨some [], none, none, none⟩ "Jane Doe" "1995-03-02" "e" "p" "c" "m" "g" 9191 rfl).1
    (by rfl)
  have h2 := (patient_creation_id_and_growth (fun _ => some 9191)
    ⟨some [janeRow], none, none, none⟩ "jane doe" "1995-03-02" "e2" "p2" "c2" "m2" "g2"
    9191 rfl).2 janeRow (by rfl)
  exact ⟨h1.1, h2⟩

/-- C3: submitting the same intake twice with identical normalized values
(name equal up to case, date of birth parsing to the same day) makes the
second find_or_create_patient call return is_new false with the patient store
left exactly as it was after the first call. -/
theorem duplicate_intake_is_idempotent
    (parse_date : String → Option Nat) (fs : FS)
    (name1 dob1 e1 p1 c1 m1 g1 name2 dob2 e2 p2 c2 m2 g2 : String) (dn : Nat)
    (h1p : parse_date dob1 = some dn) (h2p : parse_date dob2 = some dn)
    (hname : strLower name2 = strLower name1)
    (fs1 : FS) (pat : Patient) (isnew : Bool)
    (hcall1 : find_or_create_patient parse_date fs name1 dob1 e1 p1 c1 m1 g1 =
      (fs1, Except.ok (pat, isnew))) :
    ∃ pat2, find_or_create_patient parse_date fs1 name2 dob2 e2 p2 c2 m2 g2 =
      (fs1, Except.ok (pat2, false)) := by
  have hpred : patientMatches name2 (fmtDate dn) = patientMatches name1 (fmtDate dn) := by
    funext q
    simp [patientMatches, hname]
  simp only [find_or_create_patient, h1p] at hcall1
  cases hfind : (load_patients fs).find? (patientMatches name1 (fmtDate dn)) with
  | some q =>
    rw [hfind] at hcall1
    simp only [Prod.mk.injEq] at hcall1
    obtain ⟨hfs1, _⟩ := hcall1
    subst hfs1
    refine ⟨q, ?_⟩
    simp [find_or_create_patient, h2p, hpred, hfind]
  | none =>
    rw [hfind] at hcall1
    simp only [Prod.mk.injEq] at hcall1
    obtain ⟨hfs1, _⟩ := hcall1
    subst hfs1
    refine ⟨new_patient_row (load_patients fs) name1 (fmtDate dn) e1 p1 c1 m1 g1, ?_⟩
    have hfind2 : (load_patients fs ++
        [new_patient_row (load_patients fs) name1 (fmtDate dn) e1 p1 c1 m1 g1]).find?
          (patientMatches name1 (fmtDate dn)) =
        some (new_patient_row (load_patients fs) name1 (fmtDate dn) e1 p1 c1 m1 g1) := by
      rw [List.find?_append, hfind]
      simp [List.find?, patientMatches, new_patient_row]
    simp only [find_or_create_patient, h2p, hpred, load_patients, save_patients,
      Option.getD_some] at hfind2 ⊢
    rw [hfind2]

/-- Witness for C3: resubmitting the concrete intake in different case on the
store produced by the first call changes nothing and reports an existing
patient. -/
theorem duplicate_intake_is_idempotent_witness :
    ∃ pat2, find_or_create_patient (fun _ => some 9191)
        ⟨some [janeRow], none, none, none⟩ "JANE DOE" "2 March 1995" "x" "y" "z" "w" "v" =
      (⟨some [janeRow], none, none, none⟩, Except.ok (pat2, false)) := by
  exact duplicate_intake_is_idempotent (fun _ => some 9191)
    ⟨some [], none, none, none⟩ "Jane Doe" "1995-03-02" "e" "p" "c" "m" "g"
    "JANE DOE" "2 March 1995" "x" "y" "z" "w" "v" 9191 rfl rfl (by rfl)
    ⟨some [janeRow], none, none, none⟩ janeRow true (by rfl)

theorem getD_eq_getElem {l : List Slot} {i : Nat} (h : i < l.length) :
    l.getD i default = l[i] := by
  rw [List.getD_eq_getElem?_getD, List.getElem?_eq_getElem h]
  rfl

theorem pairwise_unique_start_getD {l : List Slot}
    (h : l.Pairwise (fun a b => a.doctor = b.doctor → a.start ≠ b.start))
    {i j : Nat} (hi : i < l.length) (hj : j < l.length) (hij : i ≠ j)
    (hdoc : (l.getD i default).doctor = (l.getD j default).doctor) :
    (l.getD i default).start ≠ (l.getD j default).start := by
  rw [getD_eq_getElem hi, getD_eq_getElem hj] at hdoc ⊢
  rcases Nat.lt_or_ge i j with hlt | hge
  · exact List.pairwise_iff_getElem.mp h i j hi hj hlt hdoc
  · have hlt : j < i := Nat.lt_of_le_of_ne hge (Ne.symm hij)
    intro hst
    exact List.pairwise_iff_getElem.mp h j i hj hi hlt hdoc.symm hst.symm

/-- C2: when the ledger has at most one row per doctor and start, booking the
same doctor and start twice in sequence makes the second book_appointment
call return None with the whole file state unchanged: no write occurs. -/
theorem rebooking_same_slot_returns_none
    (parse_date parse_time : String → Option Nat) (fs : FS)
    (patient patient2 : Patient) (doctor date_str time_str : String)
    (dur1 dur2 : Nat) (d t : Nat) (fs1 : FS) (res1 : BookingResult)
    (hd : parse_date date_str = some d) (ht : parse_time time_str = some t)
    (huniq : (load_schedule fs).Pairwise
      (fun a b => a.doctor = b.doctor → a.start ≠ b.start))
    (h1 : book_appointment parse_date parse_time fs patient doctor date_str time_str dur1 =
      (fs1, Except.ok (some res1))) :
    book_appointment parse_date parse_time fs1 patient2 doctor date_str time_str dur2 =
      (fs1, Except.ok none) := by
  simp only [book_appointment, hd, ht] at h1 ⊢
  cases hfm : first_match_idx (slotMask doctor (d * 1440 + t)) (load_schedule fs) with
  | none =>
    rw [hfm] at h1
    simp at h1
  | some i =>
    rw [hfm] at h1
    simp only [Prod.mk.injEq] at h1
    obtain ⟨hfs1, _⟩ := h1
    obtain ⟨hlen, hmask, _⟩ := first_match_idx_spec hfm
    have hload1 : load_schedule fs1 =
        (load_schedule fs).set i
          { (load_schedule fs).getD i default
              with booked := true, patient_id := patient.patient_id } := by
      rw [← hfs1]
      show (export_appointments _ _).schedule.getD [] = _
      rw [export_appointments_schedule]
      rfl
    have hmaski := hmask
    simp only [slotMask, Bool.and_eq_true, beq_iff_eq] at hmaski
    have hnone : first_match_idx (slotMask doctor (d * 1440 + t)) (load_schedule fs1) =
        none := by
      rw [first_match_idx_none_iff]
      intro j hj
      rw [hload1, List.length_set] at hj
      rw [hload1]
      by_cases hji : j = i
      · subst hji
        rw [getD_set_self _ hj]
        simp [slotMask]
      · rw [getD_set_of_ne _ (fun hh => hji hh.symm)]
        by_contra hmj
        simp only [Bool.not_eq_false] at hmj
        simp only [slotMask, Bool.and_eq_true, beq_iff_eq] at hmj
        have hdoc : ((load_schedule fs).getD i default).doctor =
            ((load_schedule fs).getD j default).doctor := by
          rw [hmaski.1.1, hmj.1.1]
        have hst : ((load_schedule fs).getD i default).start =
            ((load_schedule fs).getD j default).start := by
          rw [hmaski.2, hmj.2]
        exact pairwise_unique_start_getD huniq hlen hj (fun hh => hji hh.symm) hdoc hst
    rw [hnone]

/-- Witness for C2: rebooking the already booked concrete slot fails and
leaves the file state alone. -/
theorem rebooking_same_slot_returns_none_witness :
    book_appointment (fun _ => some 100) (fun _ => some 540) bookingWitnessFS2
        bookingWitnessPatient "Dr. Rao" "2025-09-05" "09:00" 30 =
      (bookingWitnessFS2, Except.ok none) := by
  exact rebooking_same_slot_returns_none (fun _ => some 100) (fun _ => some 540)
    bookingWitnessFS bookingWitnessPatient bookingWitnessPatient
    "Dr. Rao" "2025-09-05" "09:00" 30 30 100 540 bookingWitnessFS2
    { doctor := "Dr. Rao", start := 100 * 1440 + 540,
      res_end := 100 * 1440 + 540 + 30, location := "Main Clinic" }
    rfl rfl (by decide) rfl

theorem mem_seed_block {today : Nat} {name loc : String} {x : Slot}
    (h : x ∈ seed_block today name loc) :
    x.doctor = name ∧ x.location = loc ∧ x.slot_end = x.start + 30 ∧
      x.booked = false ∧ x.patient_id = "" ∧
      ∃ dd k, dd < 7 ∧ k < 16 ∧ x.start = (today + dd) * 1440 + 9 * 60 + 30 * k := by
  simp only [seed_block, List.mem_flatMap, List.mem_map, List.mem_range] at h
  obtain ⟨dd, hdd, k, hk, rfl⟩ := h
  exact ⟨rfl, rfl, rfl, rfl, rfl, dd, k, hdd, hk, rfl⟩

theorem seed_slots_doctor_mem {today : Nat} {s : Slot} (h : s ∈ seed_slots today) :
    s.doctor = "Dr. Rao" ∨ s.doctor = "Dr. Iyer" ∨ s.doctor = "Dr. Mehta" := by
  simp only [seed_slots, seed_doctors, List.mem_flatMap, List.mem_cons,
    List.not_mem_nil, or_false] at h
  obtain ⟨dl, hdl, hmem⟩ := h
  have hdoc := (mem_seed_block hmem).1
  rcases hdl with rfl | rfl | rfl
  · exact Or.inl hdoc
  · exact Or.inr (Or.inl hdoc)
  · exact Or.inr (Or.inr hdoc)

/-- C10: the seeded ledger names only the doctors Rao, Iyer and Mehta, while
the intake form offers Shyam, John and Mehta; for every seeded schedule and
parseable date and time, booking Dr. Shyam or Dr. John returns None and
changes no state, so two of the three selectable doctors can never be
booked. -/
theorem form_doctors_unbookable
    (parse_date parse_time : String → Option Nat) (today : Nat) (fs : FS)
    (patient : Patient) (doctor date_str time_str : String) (dur d t : Nat)
    (hsched : fs.schedule = some (seed_slots today))
    (hd : parse_date date_str = some d) (ht : parse_time time_str = some t)
    (hdoc : doctor = "Dr. Shyam" ∨ doctor = "Dr. John") :
    doctor ∈ doctor_options ∧
    (∀ s ∈ seed_slots today,
      s.doctor = "Dr. Rao" ∨ s.doctor = "Dr. Iyer" ∨ s.doctor = "Dr. Mehta") ∧
    book_appointment parse_date parse_time fs patient doctor date_str time_str dur =
      (fs, Except.ok none) := by
  have hls : load_schedule fs = seed_slots today := by
    rw [load_schedule, hsched]
    rfl
  refine ⟨?_, fun s hs => seed_slots_doctor_mem hs, ?_⟩
  · rcases hdoc with rfl | rfl
    · exact List.mem_cons_self _ _
    · exact List.mem_cons_of_mem _ (List.mem_cons_self _ _)
  · have hnone : first_match_idx (slotMask doctor (d * 1440 + t)) (load_schedule fs) =
        none := by
      rw [first_match_idx_none_iff]
      intro j hj
      have hmem : (load_schedule fs).getD j default ∈ load_schedule fs := by
        rw [getD_eq_getElem hj]
        exact List.getElem_mem hj
      rw [hls] at hmem
      have hdocs := seed_slots_doctor_mem hmem
      have hne : ((load_schedule fs).getD j default).doctor ≠ doctor := by
        rw [hls]
        rcases hdocs with h1 | h1 | h1 <;> rcases hdoc with rfl | rfl <;>
          rw [h1] <;> decide
      have hbeq : (((load_schedule fs).getD j default).doctor == doctor) = false :=
        beq_eq_false_iff_ne.mpr hne
      unfold slotMask
      rw [hbeq, Bool.false_and, Bool.false_and]
    simp only [book_appointment, hd, ht, hnone]

/-- Witness for C10: on the concrete seeded ledger for day 0, booking
Dr. Shyam at 09:00 of day 0 returns None and changes nothing. -/
theorem form_doctors_unbookable_witness :
    "Dr. Shyam" ∈ doctor_options ∧
    (∀ s ∈ seed_slots 0,
      s.doctor = "Dr. Rao" ∨ s.doctor = "Dr. Iyer" ∨ s.doctor = "Dr. Mehta") ∧
    book_appointment (fun _ => some 0) (fun _ => some 540)
        ⟨none, some (seed_slots 0), none, none⟩ bookingWitnessPatient
        "Dr. Shyam" "today" "09:00" 30 =
      (⟨none, some (seed_slots 0), none, none⟩, Except.ok none) := by
  exact form_doctors_unbookable (fun _ => some 0) (fun _ => some 540) 0
    ⟨none, some (seed_slots 0), none, none⟩ bookingWitnessPatient
    "Dr. Shyam" "today" "09:00" 30 0 540 rfl rfl rfl (Or.inl rfl)

theorem pairwise_flatMap_of {α β : Type} {R : β → β → Prop} {l : List α}
    {f : α → List β} (hin : ∀ a ∈ l, (f a).Pairwise R)
    (hcross : l.Pairwise (fun a b => ∀ x ∈ f a, ∀ y ∈ f b, R x y)) :
    (l.flatMap f).Pairwise R := by
  induction l with
  | nil => simp
  | cons a as ih =>
    rw [List.flatMap_cons, List.pairwise_append]
    rw [List.pairwise_cons] at hcross
    refine ⟨hin a (List.mem_cons_self a as),
      ih (fun b hb => hin b (List.mem_cons_of_mem _ hb)) hcross.2, ?_⟩
    intro x hx y hy
    rw [List.mem_flatMap] at hy
    obtain ⟨b, hb, hyb⟩ := hy
    exact hcross.1 b hb x hx y hyb

theorem pairwise_seed_block (today : Nat) (name loc : String) :
    (seed_block today name loc).Pairwise (fun a b => a.start + 30 ≤ b.start) := by
  apply pairwise_flatMap_of
  · intro dd _
    rw [List.pairwise_map]
    refine List.Pairwise.imp ?_ (List.pairwise_lt_range 16)
    intro k1 k2 hk
    dsimp only
    omega
  · refine List.Pairwise.imp ?_ (List.pairwise_lt_range 7)
    intro dd1 dd2 hdd x hx y hy
    simp only [List.mem_map, List.mem_range] at hx hy
    obtain ⟨k1, hk1, rfl⟩ := hx
    obtain ⟨k2, hk2, rfl⟩ := hy
    dsimp only
    omega

theorem pairwise_seed_slots (today : Nat) :
    (seed_slots today).Pairwise
      (fun a b => a.doctor = b.doctor →
        a.start ≠ b.start ∧ (a.slot_end ≤ b.start ∨ b.slot_end ≤ a.start)) := by
  apply pairwise_flatMap_of
  · intro dl _
    refine List.Pairwise.imp_of_mem ?_ (pairwise_seed_block today dl.1 dl.2)
    intro a b ha hb hR _
    obtain ⟨_, _, hea, _, _, _⟩ := mem_seed_block ha
    obtain ⟨_, _, heb, _, _, _⟩ := mem_seed_block hb
    exact ⟨by omega, Or.inl (by omega)⟩
  · rw [seed_doctors]
    refine List.Pairwise.cons ?_ (List.Pairwise.cons ?_
      (List.Pairwise.cons ?_ List.Pairwise.nil)) <;>
      intro d2 hd2 x hx y hy <;> intro hdxy <;> exfalso <;>
      simp only [List.mem_cons, List.not_mem_nil, or_false] at hd2
    · have hx1 := (mem_seed_block hx).1
      have hy1 := (mem_seed_block hy).1
      rw [hx1, hy1] at hdxy
      rcases hd2 with rfl | rfl <;> exact absurd hdxy (by decide)
    · have hx1 := (mem_seed_block hx).1
      have hy1 := (mem_seed_block hy).1
      rw [hx1, hy1] at hdxy
      rcases hd2 with rfl <;> exact absurd hdxy (by decide)

theorem seed_block_length (today : Nat) (name loc : String) :
    (seed_block today name loc).length = 112 := by
  rw [seed_block, List.length_flatMap]
  simp [Function.comp_def, List.length_map, List.length_range, List.map_const',
    List.sum_replicate]

theorem seed_slots_length (today : Nat) : (seed_slots today).length = 336 := by
  rw [seed_slots, List.length_flatMap]
  simp [seed_doctors, Function.comp_def, seed_block_length]

/-- C7: ensure_seed_data is idempotent per store (an existing patient store
is left untouched, and independently likewise for the slot store), and on a
fresh state it generates 3 doctors times 7 days times 16 half-hour slots,
336 rows, all unbooked with empty patient id, such that for each fixed
doctor the start times are unique and the half hour intervals are
non-overlapping. -/
theorem seed_data_idempotent_and_grid (today : Nat) (fs : FS) :
    (∀ ps, fs.patients = some ps → (ensure_seed_data today fs).patients = some ps) ∧
    (∀ ss, fs.schedule = some ss → (ensure_seed_data today fs).schedule = some ss) ∧
    (fs.patients = none → (ensure_seed_data today fs).patients = some seed_patients) ∧
    (fs.schedule = none → (ensure_seed_data today fs).schedule = some (seed_slots today)) ∧
    (seed_slots today).length = 336 ∧
    (∀ s ∈ seed_slots today, s.booked = false ∧ s.patient_id = "") ∧
    (seed_slots today).Pairwise
      (fun a b => a.doctor = b.doctor →
        a.start ≠ b.start ∧ (a.slot_end ≤ b.start ∨ b.slot_end ≤ a.start)) := by
  refine ⟨?_, ?_, ?_, ?_, seed_slots_length today, ?_, pairwise_seed_slots today⟩
  · intro ps hps
    simp only [ensure_seed_data, hps]
    cases hs : fs.schedule <;> simp [hs, hps]
  · intro ss hss
    simp only [ensure_seed_data]
    cases hp : fs.patients <;> simp [hp, hss]
  · intro hp
    simp only [ensure_seed_data, hp]
    cases hs : fs.schedule <;> simp [hs]
  · intro hs
    simp only [ensure_seed_data, hs]
    cases hp : fs.patients <;> simp [hp, hs]
  · intro s hs
    rw [seed_slots, List.mem_flatMap] at hs
    obtain ⟨dl, _, hmem⟩ := hs
    obtain ⟨_, _, _, hb, hpid, _⟩ := mem_seed_block hmem
    exact ⟨hb, hpid⟩

/-- Witness for C7 at concrete file states: existing stores are untouched,
absent stores are seeded, and the day zero grid has 336 rows. -/
theorem seed_data_idempotent_and_grid_witness :
    (ensure_seed_data 0 ⟨some [], some [], none, none⟩).patients = some [] ∧
    (ensure_seed_data 0 ⟨some [], some [], none, none⟩).schedule = some [] ∧
    (ensure_seed_data 0 ⟨none, none, none, none⟩).patients = some seed_patients ∧
    (ensure_seed_data 0 ⟨none, none, none, none⟩).schedule = some (seed_slots 0) ∧
    (seed_slots 0).length = 336 := by
  have h1 := seed_data_idempotent_and_grid 0 ⟨some [], some [], none, none⟩
  have h2 := seed_data_idempotent_and_grid 0 ⟨none, none, none, none⟩
  exact ⟨h1.1 [] rfl, h1.2.1 [] rfl, h2.2.2.1 rfl, h2.2.2.2.1 rfl, h2.2.2.2.2.1⟩

end SchedulingAgent
